import Mathlib

/-!
# ShadowPen ticket tracker (`go_ticket/main.go`): handlers over an explicit store

The Go program wires eleven HTTP routes to a relational store through an ORM.
Here the store is an explicit value (three tables as lists, in insertion order),
every handler is a function `Store → Request → Store × Response`, and the
access-log middleware is composed in front of the handler exactly as `r.Use`
does.  Strings are Lean strings, identifiers are natural numbers, instants are
integers (nanoseconds).  All clock readings taken while one request is served are
represented by the single instant `Request.now`.  The column `access_logs.created_at`,
the only one the program has the database order rows by, is kept in its stored form
(`Stamp`).  Text from the request that the ORM passes to the database as SQL is run by
an `Engine`, a parameter standing for the database driver.
-/

namespace GoTicket

/-! ## Models -/

/-- Row of table `comments` (Go struct `Comment`). -/
structure Comment where
  ID : Nat
  TicketID : Nat
  Author : String
  Content : String
  CreatedAt : Int
  deriving DecidableEq, Repr

/-- Go struct `Ticket`.  `Comments` is the has-many association field: it is not a
column, it is filled only by `Preload`. -/
structure Ticket where
  ID : Nat
  Subject : String
  Description : String
  Priority : String
  Status : String
  CreatedAt : Int
  UpdatedAt : Int
  Comments : List Comment
  deriving DecidableEq, Repr

/-- A `time.Time` as the driver stores it in a `datetime` column: the text of the local
wall-clock reading followed by the zone offset (`2006-01-02 15:04:05.999999999-07:00`).
`wall` is the wall-clock reading in nanoseconds (instant plus offset), `zone` the offset
in minutes as printed. -/
structure Stamp where
  wall : Int
  zone : Int
  deriving DecidableEq, Repr

/-- Row of table `access_logs` (Go struct `AccessLog`). -/
structure AccessLog where
  ID : Nat
  UserAgent : String
  Path : String
  CreatedAt : Stamp
  deriving DecidableEq, Repr

/-! ## Database -/

/-- The three tables behind the global `db` handle, rows in insertion order. -/
structure Store where
  tickets : List Ticket
  comments : List Comment
  accessLogs : List AccessLog
  deriving DecidableEq, Repr

/-- Store of a freshly migrated, empty database file. -/
def emptyStore : Store := { tickets := [], comments := [], accessLogs := [] }

/-- Primary key handed out for a new row: one above the largest key in the table. -/
def nextID (ids : List Nat) : Nat := ids.foldr max 0 + 1

/-- Insertion of child comments for the parent key `tid`: each gets that foreign key
and a fresh primary key. -/
def insertComments (tid : Nat) : List Comment → List Comment → List Comment
  | [], table => table
  | c :: cs, table =>
    insertComments tid cs
      (table ++ [{ c with ID := nextID (table.map Comment.ID), TicketID := tid }])

/-- Effect of `db.Create(&ticket)` for a ticket whose `ID` is unset: the row gets a
fresh key, its `Comments` are inserted as rows of `comments` pointing at it. -/
def createTicket (s : Store) (t : Ticket) : Store :=
  let tid := nextID (s.tickets.map Ticket.ID)
  { s with
    tickets := s.tickets ++ [{ t with ID := tid, Comments := [] }]
    comments := insertComments tid t.Comments s.comments }

/-- Effect of `db.Create(&AccessLog{...})`. -/
def createAccessLog (s : Store) (l : AccessLog) : Store :=
  { s with accessLogs := s.accessLogs ++ [{ l with ID := nextID (s.accessLogs.map AccessLog.ID) }] }

/-- Length of one minute in nanoseconds. -/
def minute : Int := 60 * 1000000000

/-- Length of one hour in nanoseconds (Go `time.Hour`). -/
def hour : Int := 60 * minute

/-- The stored form of a clock reading `now` taken under zone offset `zone` (whole
minutes). -/
def stampOf (now zone : Int) : Stamp := { wall := now + zone * minute, zone := zone }

/-- Rank of the printed zone offset in text order: `+hh:mm` sorts before `-hh:mm`, and
within one sign the larger magnitude sorts later. -/
def zoneKey (zone : Int) : Nat × Nat :=
  if zone < 0 then (1, zone.natAbs) else (0, zone.natAbs)

/-- The stored text of `a` is at most the stored text of `b` in the byte order by which
the database compares the column: wall-clock reading first, printed offset second. -/
def stampLe (a b : Stamp) : Bool :=
  decide (a.wall < b.wall) ||
    (decide (a.wall = b.wall) &&
      (decide ((zoneKey a.zone).1 < (zoneKey b.zone).1) ||
        (decide ((zoneKey a.zone).1 = (zoneKey b.zone).1) &&
          decide ((zoneKey a.zone).2 ≤ (zoneKey b.zone).2))))

/-- The eight seed tickets of `initDB`, in source order; `now` is the startup instant.
`UpdatedAt` is left unset in the source and filled with the insertion instant. -/
def seedTickets (now : Int) : List Ticket :=
  [ { ID := 0, Subject := "Cannot login",
      Description := "I forgot my password and the reset link is not working. I've tried multiple times but haven't received any email.",
      Priority := "High", Status := "Open", CreatedAt := now - 48 * hour, UpdatedAt := now,
      Comments :=
        [ { ID := 0, TicketID := 0, Author := "Support",
            Content := "Have you checked your spam folder? The reset email might have been filtered.",
            CreatedAt := now - 47 * hour },
          { ID := 0, TicketID := 0, Author := "john.doe",
            Content := "Yes, I checked spam folder but nothing there. Can you resend?",
            CreatedAt := now - 24 * hour } ] },
    { ID := 0, Subject := "Feature request: Dark mode",
      Description := "Please add dark mode to the app. It would be great for users who work late at night.",
      Priority := "Low", Status := "Open", CreatedAt := now - 72 * hour, UpdatedAt := now,
      Comments :=
        [ { ID := 0, TicketID := 0, Author := "Support",
            Content := "Thank you for your suggestion! We've added this to our roadmap.",
            CreatedAt := now - 70 * hour },
          { ID := 0, TicketID := 0, Author := "jane.smith",
            Content := "I second this! Dark mode would be amazing.",
            CreatedAt := now - 50 * hour } ] },
    { ID := 0, Subject := "Payment processing error",
      Description := "When I try to complete a payment, I get an error message saying 'Transaction failed'. This happens every time I try to pay.",
      Priority := "High", Status := "Open", CreatedAt := now - 12 * hour, UpdatedAt := now,
      Comments :=
        [ { ID := 0, TicketID := 0, Author := "Support",
            Content := "We're investigating this issue. Can you provide your transaction ID?",
            CreatedAt := now - 10 * hour } ] },
    { ID := 0, Subject := "Account locked after multiple failed attempts",
      Description := "My account has been locked after I entered the wrong password a few times. How can I unlock it?",
      Priority := "Medium", Status := "Open", CreatedAt := now - 6 * hour, UpdatedAt := now,
      Comments :=
        [ { ID := 0, TicketID := 0, Author := "Support",
            Content := "Your account will be automatically unlocked after 30 minutes. Alternatively, you can use the password reset feature.",
            CreatedAt := now - 5 * hour } ] },
    { ID := 0, Subject := "Email notifications not working",
      Description := "I'm not receiving email notifications for ticket updates. I've checked my email settings and everything looks correct.",
      Priority := "Medium", Status := "Closed", CreatedAt := now - 120 * hour, UpdatedAt := now,
      Comments :=
        [ { ID := 0, TicketID := 0, Author := "Support",
            Content := "We found the issue - your email was marked as unverified. Please verify your email address.",
            CreatedAt := now - 118 * hour },
          { ID := 0, TicketID := 0, Author := "user123",
            Content := "Thank you! I've verified my email and notifications are working now.",
            CreatedAt := now - 100 * hour },
          { ID := 0, TicketID := 0, Author := "Support",
            Content := "Great! I'm closing this ticket. If you encounter any other issues, please let us know.",
            CreatedAt := now - 99 * hour } ] },
    { ID := 0, Subject := "API rate limit too restrictive",
      Description := "The API rate limit of 100 requests per hour is too low for our integration. Can we get it increased?",
      Priority := "Medium", Status := "Open", CreatedAt := now - 36 * hour, UpdatedAt := now,
      Comments :=
        [ { ID := 0, TicketID := 0, Author := "Support",
            Content := "We can increase the rate limit for enterprise accounts. Would you like to upgrade?",
            CreatedAt := now - 35 * hour } ] },
    { ID := 0, Subject := "Mobile view layout broken",
      Description := "On mobile devices, the ticket list table is not responsive and text overlaps. This makes it impossible to read ticket subjects.",
      Priority := "High", Status := "Open", CreatedAt := now - 18 * hour, UpdatedAt := now,
      Comments :=
        [ { ID := 0, TicketID := 0, Author := "Support",
            Content := "Thank you for reporting this. Our development team is working on a fix.",
            CreatedAt := now - 16 * hour },
          { ID := 0, TicketID := 0, Author := "dev.team",
            Content := "Fix deployed. Please refresh and let us know if the issue persists.",
            CreatedAt := now - 2 * hour } ] },
    { ID := 0, Subject := "Request: Export tickets to CSV",
      Description := "It would be very helpful if we could export our tickets to CSV format for reporting purposes.",
      Priority := "Low", Status := "Open", CreatedAt := now - 96 * hour, UpdatedAt := now,
      Comments :=
        [ { ID := 0, TicketID := 0, Author := "Support",
            Content := "This feature is planned for our next release. Stay tuned!",
            CreatedAt := now - 94 * hour } ] } ]

/-- Go `initDB` after connection and migration: seed only when `tickets` is empty. -/
def initDB (s : Store) (now : Int) : Store :=
  if s.tickets.length = 0 then (seedTickets now).foldl createTicket s else s

/-- The seeded store: `initDB` run on an empty database at instant `now`. -/
def seededStore (now : Int) : Store := initDB emptyStore now

/-! ## Queries -/

/-- ASCII lower-casing, the folding SQLite applies inside `LIKE`. -/
def asciiLower (c : Char) : Char :=
  if 'A' ≤ c ∧ c ≤ 'Z' then Char.ofNat (c.toNat + 32) else c

/-- Some suffix of the text (the text itself and the empty suffix included) satisfies `f`. -/
def anySuffix (f : List Char → Bool) : List Char → Bool
  | [] => f []
  | c :: cs => f (c :: cs) || anySuffix f cs

/-- SQLite `text LIKE pattern` without `ESCAPE`: `%` matches any run of characters,
`_` matches exactly one character, every other character matches itself up to ASCII
letter case. -/
def like : List Char → List Char → Bool
  | [], text => text.isEmpty
  | p :: ps, text =>
    if p = '%' then anySuffix (like ps) text
    else
      match text with
      | [] => false
      | c :: cs => (p = '_' || asciiLower p = asciiLower c) && like ps cs

/-- A text value as the `LIKE` function reads it, a C string: the characters before the
first NUL character. -/
def cstr : List Char → List Char
  | [] => []
  | c :: cs => if c = Char.ofNat 0 then [] else c :: cstr cs

/-- The pattern the handlers bind: `"%"+value+"%"`. -/
def likePattern (value : String) : String := "%" ++ value ++ "%"

/-- SQLite's default limit on the length in bytes of a `LIKE` pattern. -/
def likePatternLimit : Nat := 50000

/-- The pattern is longer than the limit: every evaluation of `LIKE` with it fails with
`LIKE or GLOB pattern too complex`. -/
def patternTooLong (pattern : String) : Bool :=
  decide (likePatternLimit < pattern.utf8ByteSize)

/-- The condition `column LIKE ?` with the bound pattern `"%"+value+"%"`, for a pattern
within the limit. -/
def likeContains (value column : String) : Bool :=
  like (cstr (likePattern value).data) (cstr column.data)

/-- The query `Where(<LIKE conditions>).Find(&tickets)` with bound pattern `pattern` and
row condition `cond`.  With a pattern over the limit the statement fails on the first row
it examines; the handlers ignore the error of `Find`, and the slice stays empty. -/
def findLike (pattern : String) (cond : Ticket → Bool) (rows : List Ticket) : List Ticket :=
  if patternTooLong pattern then [] else rows.filter cond

/-- Rows as `Find` scans them into `[]Ticket`: the association field stays empty. -/
def scanTickets (rows : List Ticket) : List Ticket :=
  rows.map (fun t => { t with Comments := [] })

/-- Value of one decimal digit. -/
def digitVal (c : Char) : Option Nat :=
  if '0' ≤ c ∧ c ≤ '9' then some (c.toNat - 48) else none

/-- Value of a run of decimal digits, `acc` being the value read so far. -/
def parseDigits : List Char → Nat → Option Nat
  | [], acc => some acc
  | c :: cs, acc =>
    match digitVal c with
    | some d => parseDigits cs (acc * 10 + d)
    | none => none

/-- Go `strconv.Atoi` on a 64-bit platform: optional sign, at least one decimal digit,
nothing else, value within the range of `int`; `none` is the error result. -/
def Atoi (s : String) : Option Int :=
  match s.data with
  | [] => none
  | '-' :: ds =>
    if ds = [] then none
    else (parseDigits ds 0).bind (fun n => if n ≤ 2 ^ 63 then some (-(n : Int)) else none)
  | '+' :: ds =>
    if ds = [] then none
    else (parseDigits ds 0).bind (fun n => if n < 2 ^ 63 then some (n : Int) else none)
  | ds => (parseDigits ds 0).bind (fun n => if n < 2 ^ 63 then some (n : Int) else none)

/-- The database driver as far as the handlers hand it request text to run as SQL:
`runRaw cond s` is the outcome of the statement
`SELECT * FROM tickets WHERE <cond> ORDER BY tickets.id LIMIT 1` on the store `s`, where
`cond` is text from the request.  The driver runs whatever the text spells, statements
stacked after the condition included, so the outcome is a store, possibly changed in any
table, and either the row scanned into `ticket` or `none` for a non-nil `Error`. -/
structure Engine where
  runRaw : String → Store → Store × Option Ticket

/-- The clause `ORDER BY tickets.id LIMIT 1`: the row with the least key. -/
def firstByID : List Ticket → Option Ticket
  | [] => none
  | t :: ts =>
    match firstByID ts with
    | none => some t
    | some u => if t.ID ≤ u.ID then some t else some u

/-- The `:id` text is neither a number for `strconv.Atoi` nor empty: the ORM passes it
to the database as the `WHERE` clause itself. -/
def isRawCond (cond : String) : Bool := (Atoi cond).isNone && decide (cond ≠ "")

/-- The call `db.First(&ticket, cond)` with a string `cond`, as the ORM builds the
statement (gorm `Statement.BuildCondition`): a string that `strconv.Atoi` accepts is
compared with the primary key, the empty string adds no condition, any other string is
the `WHERE` clause itself and is run by the engine.  The result is the store after the
statement and the row found, `none` being a non-nil `Error` (no row, or a failing
statement). -/
def First (E : Engine) (s : Store) (cond : String) : Store × Option Ticket :=
  match Atoi cond with
  | some n => (s, firstByID ((scanTickets s.tickets).filter (fun t => (t.ID : Int) = n)))
  | none =>
    if cond = "" then (s, firstByID (scanTickets s.tickets))
    else E.runRaw cond s

/-- Rows of `comments` owned by the ticket with key `tid`. -/
def commentsOf (s : Store) (tid : Nat) : List Comment :=
  s.comments.filter (fun c => c.TicketID = tid)

/-- The call `db.Preload("Comments").First(&ticket, cond)`: the comments are read, after
the row was found, from the store the first statement left. -/
def PreloadFirst (E : Engine) (s : Store) (cond : String) : Store × Option Ticket :=
  match First E s cond with
  | (s1, none) => (s1, none)
  | (s1, some t) => (s1, some { t with Comments := commentsOf s1 t.ID })

/-- The clause `ORDER BY created_at desc`: insertion of one row into a list that is
already ordered from the greatest stored text to the least; rows with equal text keep
their table order. -/
def insertDesc (l : AccessLog) : List AccessLog → List AccessLog
  | [] => [l]
  | x :: xs =>
    if stampLe x.CreatedAt l.CreatedAt then l :: x :: xs else x :: insertDesc l xs

/-- The clause `ORDER BY created_at desc` on a whole table. -/
def orderByCreatedAtDesc : List AccessLog → List AccessLog
  | [] => []
  | l :: ls => insertDesc l (orderByCreatedAtDesc ls)

/-! ## Requests and responses -/

/-- The eleven routes registered in `main`; `id` is the `:id` path parameter as text. -/
inductive Route where
  | home
  | loginForm
  | login
  | logout
  | ticketList
  | createTicket
  | ticketDetail (id : String)
  | addComment (id : String)
  | search
  | adminLogs
  | errorPage
  deriving DecidableEq, Repr

/-- What a handler reads from `*gin.Context`.  `route` is the router's match for the
request, `path` is `c.Request.URL.Path`, `header`, `cookie`, `query` and `postForm`
answer `c.GetHeader`, `c.Cookie`, `c.Query` and `c.PostForm` (absent header, query
or form keys read as the empty string, an absent cookie as `none`).  `now` is the
reading of `time.Now()`, `zone` the offset of the local zone at that instant, in
minutes. -/
structure Request where
  route : Route
  path : String
  header : String → String
  cookie : String → Option String
  query : String → String
  postForm : String → String
  now : Int
  zone : Int

/-- A value placed in the `gin.H` map handed to a template. -/
inductive Value where
  | str (s : String)
  | tickets (ts : List Ticket)
  | ticket (t : Ticket)
  | logs (ls : List AccessLog)
  deriving DecidableEq, Repr

/-- Arguments of `c.SetCookie`. -/
structure Cookie where
  name : String
  value : String
  maxAge : Int
  path : String
  domain : String
  secure : Bool
  httpOnly : Bool
  deriving DecidableEq, Repr

/-- The terminal call of a handler: `c.HTML(code, name, obj)` or
`c.Redirect(code, location)`. -/
inductive Reply where
  | html (code : Nat) (name : String) (obj : List (String × Value))
  | redirect (code : Nat) (location : String)
  deriving DecidableEq, Repr

/-- Everything a handler sends: the cookies it sets and its terminal call. -/
structure Response where
  cookies : List Cookie
  reply : Reply
  deriving DecidableEq, Repr

/-- Go `http.StatusOK`. -/
def StatusOK : Nat := 200

/-- Go `http.StatusFound`. -/
def StatusFound : Nat := 302

/-- The expression `username, _ := c.Cookie("username")`. -/
def cookieUsername (req : Request) : String :=
  (req.cookie "username").getD ""

/-! ## Controllers -/

/-- The middleware installed with `r.Use`: one `AccessLog` row per request. -/
def accessLogMiddleware (s : Store) (req : Request) : Store :=
  createAccessLog s
    { ID := 0, UserAgent := req.header "User-Agent", Path := req.path,
      CreatedAt := stampOf req.now req.zone }

/-- Handler of `GET /`. -/
def homeHandler (s : Store) (req : Request) : Store × Response :=
  let username := cookieUsername req
  let tickets := scanTickets s.tickets
  (s, { cookies := [],
        reply := .html StatusOK "index.html"
          [("Title", .str "Dashboard"), ("Username", .str username), ("Tickets", .tickets tickets)] })

/-- Handler of `GET /login`. -/
def loginFormHandler (s : Store) (req : Request) : Store × Response :=
  let username := cookieUsername req
  let redirect := req.query "redirect"
  (s, { cookies := [],
        reply := .html StatusOK "login.html"
          [("Title", .str "Login"), ("Redirect", .str redirect), ("Username", .str username)] })

/-- The redirect validation of `POST /login`: the target handed to `c.Redirect`. -/
def loginRedirectTarget (redirect : String) : String :=
  if redirect ≠ "" ∧ redirect.data.head? = some '/' then redirect else "/"

/-- Handler of `POST /login`. -/
def loginHandler (s : Store) (req : Request) : Store × Response :=
  let username := req.postForm "username"
  let username := if username = "" then "Guest" else username
  let redirect := req.postForm "redirect"
  (s, { cookies := [{ name := "username", value := username, maxAge := 3600, path := "/",
                      domain := "", secure := false, httpOnly := false }],
        reply := .redirect StatusFound (loginRedirectTarget redirect) })

/-- Handler of `GET /logout`. -/
def logoutHandler (s : Store) (_req : Request) : Store × Response :=
  (s, { cookies := [{ name := "username", value := "", maxAge := -1, path := "/",
                      domain := "", secure := false, httpOnly := false }],
        reply := .redirect StatusFound "/" })

/-- Handler of `GET /tickets`. -/
def ticketListHandler (s : Store) (req : Request) : Store × Response :=
  let username := cookieUsername req
  let filter := req.query "filter"
  let tickets :=
    if filter ≠ "" then
      scanTickets (findLike (likePattern filter) (fun t => likeContains filter t.Subject)
        s.tickets)
    else scanTickets s.tickets
  (s, { cookies := [],
        reply := .html StatusOK "ticket_list.html"
          [("Title", .str "All Tickets"), ("Tickets", .tickets tickets),
           ("Filter", .str filter), ("Username", .str username)] })

/-- Handler of `POST /tickets`. -/
def createTicketHandler (s : Store) (req : Request) : Store × Response :=
  let subject := req.postForm "subject"
  let description := req.postForm "description"
  let priority := req.postForm "priority"
  let ticket : Ticket :=
    { ID := 0, Subject := subject, Description := description, Priority := priority,
      Status := "Open", CreatedAt := req.now, UpdatedAt := req.now, Comments := [] }
  (createTicket s ticket, { cookies := [], reply := .redirect StatusFound "/" })

/-- Handler of `GET /tickets/:id`. -/
def ticketDetailHandler (E : Engine) (ticketID : String) (s : Store) (req : Request) :
    Store × Response :=
  let username := cookieUsername req
  match PreloadFirst E s ticketID with
  | (s1, none) =>
    (s1, { cookies := [], reply := .redirect StatusFound "/error?msg=Ticket+not+found" })
  | (s1, some ticket) =>
    (s1, { cookies := [],
           reply := .html StatusOK "ticket_detail.html"
             [("Title", .str ("Ticket #" ++ ticketID)), ("Ticket", .ticket ticket),
              ("Username", .str username)] })

/-- Effect of `db.Model(&ticket).Association("Comments").Append(&comment)` at instant
`now`: the comment becomes a row of `comments` owned by `ticket`, and the ORM sets
`updated_at` of the parent row to the current time. -/
def appendComment (s : Store) (ticket : Ticket) (comment : Comment) (now : Int) : Store :=
  { s with
    tickets := s.tickets.map (fun r => if r.ID = ticket.ID then { r with UpdatedAt := now } else r)
    comments := insertComments ticket.ID [comment] s.comments }

/-- Handler of `POST /tickets/:id/chat`. -/
def addCommentHandler (E : Engine) (ticketID : String) (s : Store) (req : Request) :
    Store × Response :=
  let content := req.postForm "content"
  let username := cookieUsername req
  let username := if username = "" then "Anonymous" else username
  match First E s ticketID with
  | (s1, none) =>
    (s1, { cookies := [], reply := .redirect StatusFound "/error?msg=Ticket+not+found" })
  | (s1, some ticket) =>
    let s2 :=
      if content ≠ "" then
        appendComment s1 ticket
          { ID := 0, TicketID := ticket.ID, Author := username, Content := content,
            CreatedAt := req.now } req.now
      else s1
    (s2, { cookies := [], reply := .redirect StatusFound ("/tickets/" ++ ticketID) })

/-- Handler of `GET /search`. -/
def searchHandler (s : Store) (req : Request) : Store × Response :=
  let username := cookieUsername req
  let q := req.query "q"
  let tickets :=
    if q ≠ "" then
      scanTickets (findLike (likePattern q)
        (fun t => likeContains q t.Subject || likeContains q t.Description) s.tickets)
    else []
  (s, { cookies := [],
        reply := .html StatusOK "search.html"
          [("Title", .str "Search Results"), ("Query", .str q), ("Tickets", .tickets tickets),
           ("Username", .str username)] })

/-- The query `db.Order("created_at desc").Limit(50).Find(&logs)`. -/
def recentLogs (s : Store) : List AccessLog :=
  (orderByCreatedAtDesc s.accessLogs).take 50

/-- Handler of `GET /admin/logs`. -/
def adminLogsHandler (s : Store) (req : Request) : Store × Response :=
  let username := cookieUsername req
  let logs := recentLogs s
  (s, { cookies := [],
        reply := .html StatusOK "admin_logs.html"
          [("Title", .str "System Logs"), ("Logs", .logs logs), ("Username", .str username)] })

/-- Handler of `GET /error`. -/
def errorHandler (s : Store) (req : Request) : Store × Response :=
  let username := cookieUsername req
  let msg := req.query "msg"
  (s, { cookies := [],
        reply := .html StatusOK "error.html"
          [("Title", .str "Error"), ("Msg", .str msg), ("Username", .str username)] })

/-- The handler registered for each route. -/
def dispatch (E : Engine) (s : Store) (req : Request) : Store × Response :=
  match req.route with
  | .home => homeHandler s req
  | .loginForm => loginFormHandler s req
  | .login => loginHandler s req
  | .logout => logoutHandler s req
  | .ticketList => ticketListHandler s req
  | .createTicket => createTicketHandler s req
  | .ticketDetail id => ticketDetailHandler E id s req
  | .addComment id => addCommentHandler E id s req
  | .search => searchHandler s req
  | .adminLogs => adminLogsHandler s req
  | .errorPage => errorHandler s req

/-- One request served by the engine: the access-log middleware runs, then `c.Next()`
enters the handler on the store the middleware left. -/
def handle (E : Engine) (s : Store) (req : Request) : Store × Response :=
  dispatch E (accessLogMiddleware s req) req

/-- Store after serving a sequence of requests one after the other. -/
def run (E : Engine) (s : Store) (reqs : List Request) : Store :=
  reqs.foldl (fun st r => (handle E st r).1) s

/-- The request carries an `:id` that reaches the database as raw SQL text. -/
def usesRawID (req : Request) : Bool :=
  match req.route with
  | .ticketDetail id => isRawCond id
  | .addComment id => isRawCond id
  | _ => false

/-! ## The redirect answer -/

/-- Characters of a plain path: letters, digits, `.`, `-`, `_` and `/`. -/
def isPlainChar (c : Char) : Bool :=
  c.isAlphanum || c = '.' || c = '-' || c = '_' || c = '/'

/-- A plain rooted path: it starts with one `/`, not with `//`, and holds plain
characters only.  For such a target `url.Parse` succeeds with empty scheme and host. -/
def isPlainRooted : List Char → Bool
  | '/' :: '/' :: _ => false
  | '/' :: rest => rest.all isPlainChar
  | _ => false

/-- The elements of a path: the runs of characters between slashes. -/
def splitSlash : List Char → List (List Char)
  | [] => [[]]
  | c :: cs =>
    match splitSlash cs with
    | [] => [[]]
    | seg :: segs => if c = '/' then [] :: seg :: segs else (c :: seg) :: segs

/-- One element processed by Go `path.Clean` on a rooted path; `stack` holds the elements
kept so far, last first: empty and `.` elements are dropped, `..` removes the last
element kept, if any. -/
def cleanStep (stack : List (List Char)) (seg : List Char) : List (List Char) :=
  if seg = [] ∨ seg = ['.'] then stack
  else if seg = ['.', '.'] then stack.tail
  else seg :: stack

/-- Go `path.Clean` on a rooted path. -/
def cleanRooted (p : List Char) : List Char :=
  '/' :: List.intercalate ['/'] ((splitSlash p).foldl cleanStep []).reverse

/-- The path as `net/http.Redirect` rewrites a host-less rooted target without query:
cleaned, a trailing slash kept. -/
def cleanKeepSlash (p : List Char) : List Char :=
  if p.getLast? = some '/' ∧ (cleanRooted p).getLast? ≠ some '/' then cleanRooted p ++ ['/']
  else cleanRooted p

/-- The `Location` header that `c.Redirect(code, target)` sends, through
`net/http.Redirect`, for a target that is a plain rooted path; `none` for any other
target, which this development does not determine. -/
def redirectLocation (target : String) : Option String :=
  if isPlainRooted target.data then some (String.mk (cleanKeepSlash target.data)) else none

/-- The `Location` header of a response, where determined. -/
def answerLocation (r : Response) : Option String :=
  match r.reply with
  | .redirect _ target => redirectLocation target
  | .html _ _ _ => none

/-! ## Reference notions and sample inputs -/

/-- The text begins with `needle`, up to ASCII letter case. -/
def startsWithFold : List Char → List Char → Bool
  | [], _ => true
  | _ :: _, [] => false
  | p :: ps, c :: cs => asciiLower p = asciiLower c && startsWithFold ps cs

/-- The text contains `needle` as a contiguous run of characters, up to ASCII letter
case. -/
def containsFold (needle : List Char) : List Char → Bool
  | [] => startsWithFold needle []
  | c :: cs => startsWithFold needle (c :: cs) || containsFold needle cs

/-- The value is one of the documented priorities. -/
def isPriority (p : String) : Prop := p = "Low" ∨ p = "Medium" ∨ p = "High"

/-- The value is one of the documented statuses. -/
def isStatus (p : String) : Prop := p = "Open" ∨ p = "Closed"

/-- The target starts with two slashes: a scheme-relative URL, which a browser resolves
against the current scheme to another host. -/
def isSchemeRelative (target : String) : Prop :=
  ∃ rest, target.data = '/' :: '/' :: rest

/-- A request for `route` at `path` carrying no header, cookie, query or form value. -/
def bareRequest (route : Route) (path : String) : Request :=
  { route := route, path := path, header := fun _ => "", cookie := fun _ => none,
    query := fun _ => "", postForm := fun _ => "", now := 0, zone := 0 }

/-- The request with form field `k` set to `v`. -/
def withForm (req : Request) (k v : String) : Request :=
  { req with postForm := fun x => if x = k then v else req.postForm x }

/-- An engine on which every raw statement fails and writes nothing. -/
def rejectingEngine : Engine := { runRaw := fun _ s => (s, none) }

/-- An engine on which every raw condition holds of every row and nothing is written:
the row found is the one with the least key. -/
def acceptingEngine : Engine :=
  { runRaw := fun _ s => (s, firstByID (scanTickets s.tickets)) }

/-- An engine on which every raw statement ends by emptying `access_logs` and yields no
row. -/
def wipingEngine : Engine :=
  { runRaw := fun _ s => ({ s with accessLogs := [] }, none) }

/-- On the text `cond` the engine behaves as the plain statement
`SELECT * FROM tickets WHERE <cond> ORDER BY tickets.id LIMIT 1` does when `cond` holds
of every row: nothing is written and the row with the least key is found. -/
def holdsOfEveryRow (E : Engine) (cond : String) : Prop :=
  ∀ s : Store, E.runRaw cond s = (s, firstByID (scanTickets s.tickets))

/-- The `:id` text `1;DELETE FROM access_logs --`. -/
def deleteLogsID : String := "1;DELETE FROM access_logs --"

/-- The request `GET /tickets/1;DELETE FROM access_logs --`. -/
def deleteLogsRequest : Request :=
  bareRequest (Route.ticketDetail deleteLogsID) ("/tickets/" ++ deleteLogsID)

/-- The form submission `redirect=/a/../b` on `POST /login`. -/
def dotDotLogin : Request :=
  withForm (bareRequest Route.login "/login") "redirect" "/a/../b"

/-- A row of `access_logs` written at instant 0 under offset zero. -/
def earlyLog : AccessLog :=
  { ID := 1, UserAgent := "", Path := "/", CreatedAt := stampOf 0 0 }

/-- A row of `access_logs` written at instant 10, later than `earlyLog`, under an offset
of minus one hour. -/
def lateLog : AccessLog :=
  { ID := 2, UserAgent := "", Path := "/", CreatedAt := stampOf 10 (-60) }

/-- A store holding `earlyLog` and `lateLog`. -/
def twoZoneStore : Store :=
  { tickets := [], comments := [], accessLogs := [earlyLog, lateLog] }

/-- The form submission `subject=S1`, `description=D1`, `priority=Medium` on
`POST /tickets`. -/
def sampleCreate : Request :=
  withForm (withForm (withForm (bareRequest Route.createTicket "/tickets") "subject" "S1")
    "description" "D1") "priority" "Medium"

/-- The row of `tickets` that seeding stores first: key 1, subject `Cannot login`. -/
def seedLoginRow (now : Int) : Ticket :=
  { ID := 1, Subject := "Cannot login",
    Description := "I forgot my password and the reset link is not working. I've tried multiple times but haven't received any email.",
    Priority := "High", Status := "Open", CreatedAt := now - 48 * hour, UpdatedAt := now,
    Comments := [] }

/-- The form submission `priority=Urgent` on `POST /tickets`. -/
def urgentCreate : Request :=
  withForm (bareRequest Route.createTicket "/tickets") "priority" "Urgent"

/-- The request `GET /tickets/1=1`. -/
def rawDetailRequest : Request := bareRequest (Route.ticketDetail "1=1") "/tickets/1=1"

/-- The submission `content=hello` on `POST /tickets/1/chat`, without identity cookie. -/
def sampleChat : Request :=
  withForm (bareRequest (Route.addComment "1") "/tickets/1/chat") "content" "hello"

/-! ## Store lemmas -/

theorem accessLogMiddleware_tickets (s : Store) (req : Request) :
    (accessLogMiddleware s req).tickets = s.tickets := rfl

theorem accessLogMiddleware_comments (s : Store) (req : Request) :
    (accessLogMiddleware s req).comments = s.comments := rfl

/-- An `:id` that is a number or empty is looked up without any write. -/
theorem First_store (E : Engine) (s : Store) (cond : String) (h : isRawCond cond = false) :
    (First E s cond).1 = s := by
  unfold First
  cases ha : Atoi cond with
  | some n => rfl
  | none =>
    by_cases hc : cond = ""
    · simp [hc]
    · simp [isRawCond, ha, hc] at h

theorem PreloadFirst_store (E : Engine) (s : Store) (cond : String)
    (h : isRawCond cond = false) : (PreloadFirst E s cond).1 = s := by
  have h1 := First_store E s cond h
  unfold PreloadFirst
  rcases hf : First E s cond with ⟨s1, _ | t⟩ <;> rw [hf] at h1 <;> exact h1

theorem dispatch_accessLogs (E : Engine) (s : Store) (req : Request)
    (hraw : usesRawID req = false) :
    (dispatch E s req).1.accessLogs = s.accessLogs := by
  unfold dispatch
  cases hr : req.route with
  | ticketDetail id =>
    have hid : isRawCond id = false := by simpa [usesRawID, hr] using hraw
    have h1 := PreloadFirst_store E s id hid
    simp only [ticketDetailHandler]
    rcases hf : PreloadFirst E s id with ⟨s1, _ | t⟩ <;> rw [hf] at h1 <;>
      simp only [] at h1 ⊢ <;> rw [h1]
  | addComment id =>
    have hid : isRawCond id = false := by simpa [usesRawID, hr] using hraw
    have h1 := First_store E s id hid
    simp only [addCommentHandler]
    rcases hf : First E s id with ⟨s1, _ | t⟩ <;> rw [hf] at h1 <;> simp only [] at h1 ⊢
    · rw [h1]
    · by_cases hc : req.postForm "content" = "" <;> simp [hc, appendComment, h1]
  | _ => rfl

/-! ## Login redirect -/

theorem loginRedirectTarget_slash (r : String) (h : ∃ rest, r.data = '/' :: rest) :
    loginRedirectTarget r = r := by
  obtain ⟨rest, hr⟩ := h
  have hne : r ≠ "" := by
    intro h0
    rw [h0] at hr
    cases hr
  simp [loginRedirectTarget, hne, hr]

theorem loginRedirectTarget_other (r : String) (h : ¬ ∃ rest, r.data = '/' :: rest) :
    loginRedirectTarget r = "/" := by
  unfold loginRedirectTarget
  split
  · rename_i hc
    exfalso
    apply h
    cases hd : r.data with
    | nil => simp [hd] at hc
    | cons c cs =>
      simp [hd] at hc
      exact ⟨cs, by rw [hc.2]⟩
  · rfl

theorem handle_login (E : Engine) (s : Store) (req : Request)
    (hroute : req.route = Route.login) :
    (handle E s req).2.reply =
      Reply.redirect 302 (loginRedirectTarget (req.postForm "redirect")) := by
  simp [handle, dispatch, hroute, loginHandler, StatusFound]

/-- C1 (as amended): for every submitted `redirect` form value `r`, `POST /login` answers
with a 302 redirect.  The target the handler hands to the redirect is `r` itself when `r`
begins with the character `/`, and `/` in every other case (`r` empty, or `r` not
beginning with `/`).  The `Location` header sent is that target as `net/http.Redirect`
normalises it: it is `/` in every other case, and for an `r` that is a plain rooted path
it is the `path.Clean` form of `r` with a trailing slash kept, hence `r` itself exactly
when cleaning leaves `r` as it is. -/
theorem login_redirect_contract (E : Engine) (s : Store) (req : Request)
    (hroute : req.route = Route.login) :
    ((∃ rest, (req.postForm "redirect").data = '/' :: rest) →
        (handle E s req).2.reply = Reply.redirect 302 (req.postForm "redirect")) ∧
    ((¬ ∃ rest, (req.postForm "redirect").data = '/' :: rest) →
        (handle E s req).2.reply = Reply.redirect 302 "/") ∧
    ((¬ ∃ rest, (req.postForm "redirect").data = '/' :: rest) →
        answerLocation (handle E s req).2 = some "/") ∧
    (isPlainRooted (req.postForm "redirect").data = true →
        answerLocation (handle E s req).2 =
          some (String.mk (cleanKeepSlash (req.postForm "redirect").data))) ∧
    (isPlainRooted (req.postForm "redirect").data = true →
        (answerLocation (handle E s req).2 = some (req.postForm "redirect") ↔
          cleanKeepSlash (req.postForm "redirect").data = (req.postForm "redirect").data)) := by
  have hplain : isPlainRooted (req.postForm "redirect").data = true →
      answerLocation (handle E s req).2 =
        some (String.mk (cleanKeepSlash (req.postForm "redirect").data)) := by
    intro hp
    have hs : ∃ rest, (req.postForm "redirect").data = '/' :: rest := by
      cases hd : (req.postForm "redirect").data with
      | nil => simp [hd, isPlainRooted] at hp
      | cons c cs =>
        by_cases hc : c = '/'
        · exact ⟨cs, by rw [hc]⟩
        · rw [hd] at hp
          unfold isPlainRooted at hp
          split at hp
          · rename_i heq
            exact absurd (List.cons.inj heq).1 hc
          · rename_i heq
            exact absurd (List.cons.inj heq).1 hc
          · cases hp
    unfold answerLocation
    rw [handle_login E s req hroute, loginRedirectTarget_slash _ hs]
    simp [redirectLocation, hp]
  refine ⟨?_, ?_, ?_, hplain, ?_⟩
  · intro h
    rw [handle_login E s req hroute, loginRedirectTarget_slash _ h]
  · intro h
    rw [handle_login E s req hroute, loginRedirectTarget_other _ h]
  · intro h
    unfold answerLocation
    rw [handle_login E s req hroute, loginRedirectTarget_other _ h]
    decide
  · intro hp
    rw [hplain hp]
    constructor
    · intro h
      have h2 := congrArg String.data (Option.some.inj h)
      exact h2
    · intro h
      rw [h]

theorem login_redirect_contract_witness :
    ((handle rejectingEngine emptyStore
        (withForm (bareRequest Route.login "/login") "redirect" "/tickets")).2.reply
      = Reply.redirect 302 "/tickets" ∧
     answerLocation (handle rejectingEngine emptyStore
        (withForm (bareRequest Route.login "/login") "redirect" "/tickets")).2
      = some "/tickets") ∧
    ((handle rejectingEngine emptyStore
        (withForm (bareRequest Route.login "/login") "redirect" "http://evil.example")).2.reply
      = Reply.redirect 302 "/" ∧
     answerLocation (handle rejectingEngine emptyStore
        (withForm (bareRequest Route.login "/login") "redirect" "http://evil.example")).2
      = some "/") := by
  have hevil : ¬ ∃ rest, ((withForm (bareRequest Route.login "/login") "redirect"
      "http://evil.example").postForm "redirect").data = '/' :: rest := by
    rintro ⟨rest, h⟩
    have h2 : ("http://evil.example" : String).data.head? = some '/' :=
      congrArg List.head? h
    exact absurd h2 (by decide)
  have h1 := login_redirect_contract rejectingEngine emptyStore
    (withForm (bareRequest Route.login "/login") "redirect" "/tickets") rfl
  have h2 := login_redirect_contract rejectingEngine emptyStore
    (withForm (bareRequest Route.login "/login") "redirect" "http://evil.example") rfl
  exact ⟨⟨h1.1 ⟨"tickets".data, by decide⟩, (h1.2.2.2.2 (by decide)).mpr (by decide)⟩,
    ⟨h2.2.1 hevil, h2.2.2.1 hevil⟩⟩

/-- C1 (counterexample to the claim as stated): `POST /login` with `redirect` set to
`/a/../b`, which begins with `/`, is answered with the `Location` header `/b`, not with
the submitted value itself. -/
theorem login_redirect_cleaned_counterexample :
    (∃ rest, (dotDotLogin.postForm "redirect").data = '/' :: rest) ∧
    answerLocation (handle rejectingEngine emptyStore dotDotLogin).2 = some "/b" ∧
    answerLocation (handle rejectingEngine emptyStore dotDotLogin).2 ≠
      some (dotDotLogin.postForm "redirect") :=
  ⟨⟨"a/../b".data, by decide⟩, by decide, by decide⟩

/-- C10 (evaluation at the failing input): `POST /login` with `redirect` set to
`//evil.example` answers with a 302 redirect whose target is that very value, a
scheme-relative URL, although the validation is there to prevent open redirects. -/
theorem login_redirect_scheme_relative :
    (handle rejectingEngine emptyStore
        (withForm (bareRequest Route.login "/login") "redirect" "//evil.example")).2.reply
      = Reply.redirect 302 "//evil.example" ∧
    isSchemeRelative "//evil.example" :=
  ⟨by decide, ⟨"evil.example".data, by decide⟩⟩

/-! ## Access log -/

/-- Serving a request whose `:id`, if it has one, is a number appends exactly one
`AccessLog` row, carrying the request path and the `User-Agent` header value unchanged,
after the rows already stored, which stay as they were; the handler runs on the store
that already holds the new row. -/
theorem access_log_appended_plain (E : Engine) (s : Store) (req : Request)
    (hraw : usesRawID req = false) :
    (handle E s req).1.accessLogs =
        s.accessLogs ++ [{ ID := nextID (s.accessLogs.map AccessLog.ID),
                           UserAgent := req.header "User-Agent", Path := req.path,
                           CreatedAt := stampOf req.now req.zone }] ∧
    handle E s req = dispatch E (accessLogMiddleware s req) req := by
  refine ⟨?_, rfl⟩
  unfold handle
  rw [dispatch_accessLogs E _ req hraw]
  rfl

/-- C8 (evaluation at the failing input): the request
`GET /tickets/1;DELETE FROM access_logs --` carries an `:id` that is no number, so the
handler hands it to the database as SQL after the middleware wrote its row.  With an
engine that runs the stacked `DELETE`, the store after the request holds no access-log
row at all: neither the rows stored before nor the row of the request itself. -/
theorem access_log_raw_id_delete (E : Engine) (s : Store)
    (hdel : ∀ st : Store, (E.runRaw deleteLogsID st).1.accessLogs = []) :
    (handle E s deleteLogsRequest).1.accessLogs = [] ∧
    (handle E s deleteLogsRequest).1.accessLogs ≠
      s.accessLogs ++ [{ ID := nextID (s.accessLogs.map AccessLog.ID),
                         UserAgent := deleteLogsRequest.header "User-Agent",
                         Path := deleteLogsRequest.path,
                         CreatedAt := stampOf deleteLogsRequest.now deleteLogsRequest.zone }] := by
  have hatoi : Atoi deleteLogsID = none := by decide
  have hne : deleteLogsID ≠ "" := by decide
  have hfirst : ∀ st : Store, First E st deleteLogsID = E.runRaw deleteLogsID st := by
    intro st
    simp only [First, hatoi, hne, if_false]
  have hstore : (handle E s deleteLogsRequest).1 =
      (E.runRaw deleteLogsID (accessLogMiddleware s deleteLogsRequest)).1 := by
    show (ticketDetailHandler E deleteLogsID (accessLogMiddleware s deleteLogsRequest)
      deleteLogsRequest).1 = _
    simp only [ticketDetailHandler, PreloadFirst, hfirst]
    rcases E.runRaw deleteLogsID (accessLogMiddleware s deleteLogsRequest) with ⟨s1, _ | t⟩ <;>
      rfl
  have hempty : (handle E s deleteLogsRequest).1.accessLogs = [] := by
    rw [hstore]
    exact hdel _
  refine ⟨hempty, ?_⟩
  rw [hempty]
  intro h
  have hl := congrArg List.length h
  simp at hl

theorem access_log_raw_id_delete_witness :
    (∀ st : Store, (wipingEngine.runRaw deleteLogsID st).1.accessLogs = []) ∧
    (handle wipingEngine twoZoneStore deleteLogsRequest).1.accessLogs = [] :=
  ⟨fun _ => rfl, (access_log_raw_id_delete wipingEngine twoZoneStore (fun _ => rfl)).1⟩

/-! ## Ticket creation -/

theorem firstByID_mem : ∀ (l : List Ticket) (t : Ticket), firstByID l = some t → t ∈ l
  | [], t, h => by simp [firstByID] at h
  | x :: xs, t, h => by
    unfold firstByID at h
    cases hr : firstByID xs with
    | none =>
      rw [hr] at h
      simp at h
      simp [h]
    | some u =>
      rw [hr] at h
      simp only at h
      split at h
      · simp at h
        simp [h]
      · simp at h
        subst h
        exact List.mem_cons_of_mem _ (firstByID_mem xs u hr)

theorem firstByID_isSome : ∀ (l : List Ticket), l ≠ [] → ∃ t, firstByID l = some t
  | [], h => absurd rfl h
  | x :: xs, _ => by
    unfold firstByID
    cases firstByID xs with
    | none => exact ⟨x, rfl⟩
    | some u =>
      simp only
      split
      · exact ⟨x, rfl⟩
      · exact ⟨u, rfl⟩

theorem mem_scanTickets {t : Ticket} {rows : List Ticket} (h : t ∈ scanTickets rows) :
    ∃ r ∈ rows, t = { r with Comments := [] } := by
  simp only [scanTickets, List.mem_map] at h
  obtain ⟨r, hr, rfl⟩ := h
  exact ⟨r, hr, rfl⟩

/-- A numeric `:id` naming the key of a stored ticket resolves to a stored row with that
key. -/
theorem First_numeric_found (E : Engine) (s : Store) (cond : String) (t0 : Ticket)
    (hn : Atoi cond = some (t0.ID : Int)) (hmem : t0 ∈ s.tickets) :
    ∃ r ∈ s.tickets, r.ID = t0.ID ∧
      First E s cond = (s, some { r with Comments := [] }) := by
  have hne : (scanTickets s.tickets).filter (fun t => (t.ID : Int) = (t0.ID : Int)) ≠ [] := by
    intro h
    have : ({ t0 with Comments := [] } : Ticket) ∈
        (scanTickets s.tickets).filter (fun t => (t.ID : Int) = (t0.ID : Int)) := by
      simp only [List.mem_filter, scanTickets, List.mem_map]
      exact ⟨⟨t0, hmem, rfl⟩, by simp⟩
    rw [h] at this
    simp at this
  obtain ⟨t, ht⟩ := firstByID_isSome _ hne
  have hm := firstByID_mem _ _ ht
  simp only [List.mem_filter, decide_eq_true_eq] at hm
  obtain ⟨r, hr, rfl⟩ := mem_scanTickets hm.1
  refine ⟨r, hr, ?_, ?_⟩
  · exact_mod_cast hm.2
  · simp only [First, hn]
    rw [ht]

/-- A numeric `:id` naming no stored key does not resolve. -/
theorem First_numeric_missing (E : Engine) (s : Store) (cond : String) (n : Int)
    (hn : Atoi cond = some n) (hmiss : ∀ t ∈ s.tickets, (t.ID : Int) ≠ n) :
    First E s cond = (s, none) := by
  have hnil : (scanTickets s.tickets).filter (fun t => (t.ID : Int) = n) = [] := by
    rw [List.filter_eq_nil_iff]
    intro t ht
    obtain ⟨r, hr, rfl⟩ := mem_scanTickets ht
    simpa using hmiss r hr
  simp only [First, hn, hnil, firstByID]

/-! ## Comments -/

/-- Whenever the lookup of `GET /tickets/:id` fails, the answer is the 302 redirect to
the error page with its fixed message, and the store is left as the middleware left
it. -/
theorem ticket_detail_lookup_failed (E : Engine) (s : Store) (id : String) (req : Request)
    (hroute : req.route = Route.ticketDetail id)
    (hfail : (First E (accessLogMiddleware s req) id).2 = none) :
    (handle E s req).2 =
      { cookies := [], reply := Reply.redirect 302 "/error?msg=Ticket+not+found" } := by
  simp only [handle, dispatch, hroute, ticketDetailHandler, PreloadFirst]
  rcases hf : First E (accessLogMiddleware s req) id with ⟨s1, _ | t⟩
  · rfl
  · rw [hf] at hfail
    cases hfail

/-- A numeric `:id` that names no stored key is answered by the redirect to the error
page. -/
theorem ticket_detail_numeric_missing (E : Engine) (s : Store) (id : String) (n : Int)
    (req : Request) (hroute : req.route = Route.ticketDetail id) (hn : Atoi id = some n)
    (hmiss : ∀ t ∈ s.tickets, (t.ID : Int) ≠ n) :
    (handle E s req).2.reply = Reply.redirect 302 "/error?msg=Ticket+not+found" := by
  rw [ticket_detail_lookup_failed E s id req hroute
    (by rw [First_numeric_missing E (accessLogMiddleware s req) id n hn hmiss])]

/-- A numeric `:id` that names the key of a stored ticket is answered by the detail page
of a stored row with that key, carrying all the comments that point at the key. -/
theorem ticket_detail_numeric_found (E : Engine) (s : Store) (id : String) (t : Ticket)
    (req : Request) (hroute : req.route = Route.ticketDetail id)
    (hn : Atoi id = some (t.ID : Int)) (hmem : t ∈ s.tickets) :
    ∃ r ∈ s.tickets, r.ID = t.ID ∧
      (handle E s req).2.reply =
        Reply.html 200 "ticket_detail.html"
          [("Title", Value.str ("Ticket #" ++ id)),
           ("Ticket", Value.ticket { r with Comments := commentsOf s t.ID }),
           ("Username", Value.str (cookieUsername req))] := by
  obtain ⟨r, hr, hrid, hfirst⟩ :=
    First_numeric_found E (accessLogMiddleware s req) id t hn hmem
  refine ⟨r, hr, hrid, ?_⟩
  simp only [handle, dispatch, hroute, ticketDetailHandler, PreloadFirst, hfirst, StatusOK,
    hrid]
  rfl

theorem seeded_first (now : Int) :
    firstByID (scanTickets (seededStore now).tickets) =
      some (seedLoginRow now) := by
  simp [seededStore, initDB, seedTickets, createTicket, emptyStore, nextID, scanTickets,
    firstByID, seedLoginRow]

/-- C4 (evaluation at the failing input): on the seeded store, `GET /tickets/1=1` is not
answered by the redirect to the error page: with an engine on which the condition
`1=1` holds of every row and writes nothing, the non-numeric `:id` is taken as the
`WHERE` clause and the detail page of the seed ticket with key 1 is rendered. -/
theorem ticket_detail_raw_condition (E : Engine) (now : Int)
    (hraw : holdsOfEveryRow E "1=1") :
    ∃ t : Ticket,
      (handle E (seededStore now) rawDetailRequest).2.reply =
        Reply.html 200 "ticket_detail.html"
          [("Title", Value.str "Ticket #1=1"), ("Ticket", Value.ticket t),
           ("Username", Value.str "")] ∧
      t.ID = 1 ∧ t.Subject = "Cannot login" ∧
      (handle E (seededStore now) rawDetailRequest).2.reply ≠
        Reply.redirect 302 "/error?msg=Ticket+not+found" := by
  have hatoi : Atoi "1=1" = none := by decide
  have hfirst : First E (accessLogMiddleware (seededStore now) rawDetailRequest) "1=1" =
      (accessLogMiddleware (seededStore now) rawDetailRequest,
       firstByID (scanTickets (seededStore now).tickets)) := by
    have hne : ("1=1" : String) ≠ "" := by decide
    simp only [First, hatoi, hne, if_false, hraw _, accessLogMiddleware_tickets]
  have hreply : (handle E (seededStore now) rawDetailRequest).2.reply =
      Reply.html 200 "ticket_detail.html"
        [("Title", Value.str "Ticket #1=1"),
         ("Ticket", Value.ticket
            { seedLoginRow now with
              Comments := commentsOf (accessLogMiddleware (seededStore now) rawDetailRequest) 1 }),
         ("Username", Value.str "")] := by
    simp only [handle, dispatch, rawDetailRequest, bareRequest, ticketDetailHandler,
      PreloadFirst]
    have h2 := hfirst
    simp only [rawDetailRequest, bareRequest] at h2
    rw [h2, seeded_first]
    have htitle : ("Ticket #" ++ "1=1" : String) = "Ticket #1=1" := by decide
    simp only [StatusOK, cookieUsername, Option.getD, htitle]
    rfl
  refine ⟨_, hreply, rfl, rfl, ?_⟩
  rw [hreply]
  intro h
  cases h

theorem ticket_detail_raw_condition_witness :
    holdsOfEveryRow acceptingEngine "1=1" ∧
    ∃ t : Ticket,
      (handle acceptingEngine (seededStore 0) rawDetailRequest).2.reply =
        Reply.html 200 "ticket_detail.html"
          [("Title", Value.str "Ticket #1=1"), ("Ticket", Value.ticket t),
           ("Username", Value.str "")] ∧
      t.ID = 1 ∧ t.Subject = "Cannot login" := by
  obtain ⟨t, h1, h2, h3, _⟩ :=
    ticket_detail_raw_condition acceptingEngine 0 (fun _ => rfl)
  exact ⟨fun _ => rfl, t, h1, h2, h3⟩


/-! ## Admin logs -/

theorem anySuffix_iff (f : List Char → Bool) :
    ∀ t : List Char, anySuffix f t = true ↔ ∃ pre suf, t = pre ++ suf ∧ f suf = true
  | [] => by
    simp only [anySuffix]
    constructor
    · intro h
      exact ⟨[], [], rfl, h⟩
    · rintro ⟨pre, suf, h, hf⟩
      have hs : suf = [] := (List.append_eq_nil.mp h.symm).2
      rw [hs] at hf
      exact hf
  | c :: cs => by
    simp only [anySuffix, Bool.or_eq_true, anySuffix_iff f cs]
    constructor
    · rintro (h | ⟨pre, suf, h, hf⟩)
      · exact ⟨[], c :: cs, rfl, h⟩
      · exact ⟨c :: pre, suf, by rw [h]; rfl, hf⟩
    · rintro ⟨pre, suf, h, hf⟩
      cases pre with
      | nil =>
        left
        rw [List.nil_append] at h
        rw [h]
        exact hf
      | cons d pre =>
        right
        rw [List.cons_append] at h
        exact ⟨pre, suf, (List.cons.inj h).2, hf⟩

theorem containsFold_eq_anySuffix (needle : List Char) :
    ∀ t : List Char, containsFold needle t = anySuffix (startsWithFold needle) t
  | [] => rfl
  | c :: cs => by simp [containsFold, anySuffix, containsFold_eq_anySuffix needle cs]

theorem startsWithFold_iff :
    ∀ (needle t : List Char), startsWithFold needle t = true ↔
      ∃ mid post, t = mid ++ post ∧ mid.map asciiLower = needle.map asciiLower
  | [], t => by
    simp only [startsWithFold, true_iff]
    exact ⟨[], t, rfl, rfl⟩
  | p :: ps, [] => by
    simp only [startsWithFold, false_iff]
    simp
  | p :: ps, c :: cs => by
    simp only [startsWithFold, Bool.and_eq_true, decide_eq_true_eq, startsWithFold_iff ps cs]
    constructor
    · rintro ⟨hpc, mid, post, h, hm⟩
      exact ⟨c :: mid, post, by rw [h]; rfl, by simp [hm, hpc]⟩
    · rintro ⟨mid, post, h, hm⟩
      cases mid with
      | nil => simp at hm
      | cons d mid =>
        rw [List.cons_append] at h
        simp only [List.map_cons, List.cons.injEq] at hm
        obtain ⟨h1, h2⟩ := List.cons.inj h
        subst h1
        exact ⟨hm.1.symm, mid, post, h2, hm.2⟩

/-- The reference notion in words: the text splits into a part before, a run equal to
the needle up to ASCII letter case, and a part after. -/
theorem containsFold_iff (needle t : List Char) :
    containsFold needle t = true ↔
      ∃ pre mid post, t = pre ++ mid ++ post ∧ mid.map asciiLower = needle.map asciiLower := by
  rw [containsFold_eq_anySuffix, anySuffix_iff]
  constructor
  · rintro ⟨pre, suf, h, hs⟩
    obtain ⟨mid, post, h2, hm⟩ := (startsWithFold_iff needle suf).mp hs
    exact ⟨pre, mid, post, by rw [h, h2, List.append_assoc], hm⟩
  · rintro ⟨pre, mid, post, h, hm⟩
    exact ⟨pre, mid ++ post, by rw [h, List.append_assoc],
      (startsWithFold_iff needle _).mpr ⟨mid, post, rfl, hm⟩⟩

theorem appendComment_tickets_fields (s : Store) (ticket : Ticket) (c : Comment) (now : Int) :
    ∀ t ∈ (appendComment s ticket c now).tickets,
      ∃ t0 ∈ s.tickets, t.Status = t0.Status ∧ t.Priority = t0.Priority := by
  intro t ht
  simp only [appendComment, List.mem_map] at ht
  obtain ⟨r, hr, rfl⟩ := ht
  refine ⟨r, hr, ?_⟩
  split <;> exact ⟨rfl, rfl⟩

theorem handle_createTicket (E : Engine) (s : Store) (req : Request)
    (hroute : req.route = Route.createTicket) :
    (handle E s req).1.tickets =
      s.tickets ++ [{ ID := nextID (s.tickets.map Ticket.ID),
                      Subject := req.postForm "subject",
                      Description := req.postForm "description",
                      Priority := req.postForm "priority", Status := "Open",
                      CreatedAt := req.now, UpdatedAt := req.now, Comments := [] }] := by
  simp [handle, dispatch, hroute, createTicketHandler, createTicket, accessLogMiddleware,
    createAccessLog]

/-- Every ticket stored after a request without raw `:id` either carries the status and
priority of a ticket stored before, or was created by the request. -/
theorem handle_tickets (E : Engine) (s : Store) (req : Request)
    (hraw : usesRawID req = false) :
    ∀ t ∈ (handle E s req).1.tickets,
      (∃ t0 ∈ s.tickets, t.Status = t0.Status ∧ t.Priority = t0.Priority) ∨
      (req.route = Route.createTicket ∧ t.Status = "Open" ∧
        t.Priority = req.postForm "priority") := by
  have hsame : (handle E s req).1.tickets = s.tickets →
      ∀ t ∈ (handle E s req).1.tickets,
        (∃ t0 ∈ s.tickets, t.Status = t0.Status ∧ t.Priority = t0.Priority) ∨
        (req.route = Route.createTicket ∧ t.Status = "Open" ∧
          t.Priority = req.postForm "priority") := by
    intro he t ht
    rw [he] at ht
    exact Or.inl ⟨t, ht, rfl, rfl⟩
  cases hr : req.route with
  | createTicket =>
    intro t ht
    rw [handle_createTicket E s req hr] at ht
    rcases List.mem_append.mp ht with hm | hm
    · exact Or.inl ⟨t, hm, rfl, rfl⟩
    · rw [List.mem_singleton.mp hm]
      exact Or.inr ⟨rfl, rfl, rfl⟩
  | ticketDetail id =>
    have hid : isRawCond id = false := by simpa [usesRawID, hr] using hraw
    have h1 := PreloadFirst_store E (accessLogMiddleware s req) id hid
    rw [← hr]
    apply hsame
    simp only [handle, dispatch, hr, ticketDetailHandler]
    rcases hf : PreloadFirst E (accessLogMiddleware s req) id with ⟨s1, _ | t⟩ <;>
      rw [hf] at h1 <;> simp only [] at h1 ⊢ <;> rw [h1] <;> rfl
  | addComment id =>
    have hid : isRawCond id = false := by simpa [usesRawID, hr] using hraw
    have h1 := First_store E (accessLogMiddleware s req) id hid
    rw [← hr]
    by_cases hc : req.postForm "content" = ""
    · apply hsame
      simp only [handle, dispatch, hr, addCommentHandler]
      rcases hf : First E (accessLogMiddleware s req) id with ⟨s1, _ | t⟩ <;>
        rw [hf] at h1 <;> simp only [] at h1 ⊢
      · rw [h1]
        rfl
      · simp only [hc, ne_eq, not_true_eq_false, if_false]
        rw [h1]
        rfl
    · rcases hf : First E (accessLogMiddleware s req) id with ⟨s1, _ | t⟩
      · apply hsame
        rw [hf] at h1
        simp only [] at h1
        simp only [handle, dispatch, hr, addCommentHandler, hf]
        rw [h1]
        rfl
      · rw [hf] at h1
        simp only [] at h1
        intro x hx
        left
        simp only [handle, dispatch, hr, addCommentHandler, hf, hc, ne_eq, not_false_eq_true,
          if_true, h1] at hx
        exact appendComment_tickets_fields (accessLogMiddleware s req) _ _ _ x hx
  | home => rw [← hr]; exact hsame (by simp [handle, dispatch, hr, homeHandler]; rfl)
  | loginForm => rw [← hr]; exact hsame (by simp [handle, dispatch, hr, loginFormHandler]; rfl)
  | login => rw [← hr]; exact hsame (by simp [handle, dispatch, hr, loginHandler]; rfl)
  | logout => rw [← hr]; exact hsame (by simp [handle, dispatch, hr, logoutHandler]; rfl)
  | ticketList => rw [← hr]; exact hsame (by simp [handle, dispatch, hr, ticketListHandler]; rfl)
  | search => rw [← hr]; exact hsame (by simp [handle, dispatch, hr, searchHandler]; rfl)
  | adminLogs => rw [← hr]; exact hsame (by simp [handle, dispatch, hr, adminLogsHandler]; rfl)
  | errorPage => rw [← hr]; exact hsame (by simp [handle, dispatch, hr, errorHandler]; rfl)

theorem run_cons (E : Engine) (s : Store) (r : Request) (rs : List Request) :
    run E s (r :: rs) = run E (handle E s r).1 rs := rfl

theorem run_status (E : Engine) :
    ∀ (reqs : List Request) (s : Store), (∀ r ∈ reqs, usesRawID r = false) →
      (∀ t ∈ s.tickets, isStatus t.Status) →
      ∀ t ∈ (run E s reqs).tickets, isStatus t.Status
  | [], _, _, h => h
  | r :: rs, s, hraw, h => by
    rw [run_cons]
    apply run_status E rs _ (fun x hx => hraw x (List.mem_cons_of_mem _ hx))
    intro t ht
    rcases handle_tickets E s r (hraw r (List.mem_cons_self _ _)) t ht with
      ⟨t0, h0, hs, _⟩ | ⟨_, hs, _⟩
    · rw [hs]
      exact h t0 h0
    · rw [hs]
      exact Or.inl rfl

theorem run_priority (E : Engine) :
    ∀ (reqs : List Request) (s : Store), (∀ r ∈ reqs, usesRawID r = false) →
      (∀ t ∈ s.tickets, isPriority t.Priority) →
      (∀ r ∈ reqs, r.route = Route.createTicket → isPriority (r.postForm "priority")) →
      ∀ t ∈ (run E s reqs).tickets, isPriority t.Priority
  | [], _, _, h, _ => h
  | r :: rs, s, hraw, h, hreq => by
    rw [run_cons]
    apply run_priority E rs _ (fun x hx => hraw x (List.mem_cons_of_mem _ hx)) _
      (fun x hx => hreq x (List.mem_cons_of_mem _ hx))
    intro t ht
    rcases handle_tickets E s r (hraw r (List.mem_cons_self _ _)) t ht with
      ⟨t0, h0, _, hp⟩ | ⟨hroute, _, hp⟩
    · rw [hp]
      exact h t0 h0
    · rw [hp]
      exact hreq r (List.mem_cons_self _ _) hroute

theorem seeded_enumerations (now : Int) :
    ∀ t ∈ (seededStore now).tickets, isStatus t.Status ∧ isPriority t.Priority := by
  simp [seededStore, initDB, seedTickets, createTicket, emptyStore, nextID, isStatus,
    isPriority]

/-- C9 (as amended): in every store reached from the seeded store by a sequence of
requests none of which carries an `:id` that reaches the database as raw SQL text, every
stored ticket has status `Open` or `Closed`; and every stored ticket has a priority among
`Low`, `Medium` and `High` provided every `POST /tickets` of the sequence submitted one
of these three values, the priority being stored as submitted without a check. -/
theorem enumerations_on_reachable (E : Engine) (now : Int) (reqs : List Request)
    (hraw : ∀ r ∈ reqs, usesRawID r = false) :
    (∀ t ∈ (run E (seededStore now) reqs).tickets, isStatus t.Status) ∧
    ((∀ r ∈ reqs, r.route = Route.createTicket → isPriority (r.postForm "priority")) →
      ∀ t ∈ (run E (seededStore now) reqs).tickets, isPriority t.Priority) :=
  ⟨run_status E reqs _ hraw (fun t ht => (seeded_enumerations now t ht).1),
   run_priority E reqs _ hraw (fun t ht => (seeded_enumerations now t ht).2)⟩

theorem enumerations_on_reachable_witness :
    (∀ r ∈ [sampleCreate, sampleChat], usesRawID r = false) ∧
    (∀ r ∈ [sampleCreate, sampleChat], r.route = Route.createTicket →
        isPriority (r.postForm "priority")) ∧
    ∀ t ∈ (run rejectingEngine (seededStore 0) [sampleCreate, sampleChat]).tickets,
      isStatus t.Status ∧ isPriority t.Priority := by
  have hraw : ∀ r ∈ [sampleCreate, sampleChat], usesRawID r = false := by
    intro r hr
    rcases List.mem_cons.mp hr with rfl | hr
    · rfl
    · rw [List.mem_singleton.mp hr]
      decide
  have hreq : ∀ r ∈ [sampleCreate, sampleChat], r.route = Route.createTicket →
      isPriority (r.postForm "priority") := by
    intro r hr hroute
    rcases List.mem_cons.mp hr with rfl | hr
    · exact Or.inr (Or.inl rfl)
    · rw [List.mem_singleton.mp hr] at hroute
      exact absurd hroute (by decide)
  exact ⟨hraw, hreq, fun t ht =>
    ⟨(enumerations_on_reachable rejectingEngine 0 [sampleCreate, sampleChat] hraw).1 t ht,
     (enumerations_on_reachable rejectingEngine 0 [sampleCreate, sampleChat] hraw).2 hreq t ht⟩⟩

/-- C9 (counterexample to the claim as stated): one `POST /tickets` with
`priority=Urgent` on the seeded store leaves a stored ticket whose priority is none of
`Low`, `Medium`, `High`. -/
theorem priority_enumeration_counterexample :
    ∃ t ∈ (run rejectingEngine (seededStore 0) [urgentCreate]).tickets,
      t.Priority = "Urgent" ∧ ¬ isPriority t.Priority := by
  have he := handle_createTicket rejectingEngine (seededStore 0) urgentCreate rfl
  refine ⟨{ ID := nextID ((seededStore 0).tickets.map Ticket.ID),
            Subject := urgentCreate.postForm "subject",
            Description := urgentCreate.postForm "description",
            Priority := urgentCreate.postForm "priority", Status := "Open",
            CreatedAt := urgentCreate.now, UpdatedAt := urgentCreate.now, Comments := [] },
          ?_, rfl, ?_⟩
  · show _ ∈ (handle rejectingEngine (seededStore 0) urgentCreate).1.tickets
    rw [he]
    exact List.mem_append_right _ (List.mem_singleton_self _)
  · show ¬ isPriority "Urgent"
    unfold isPriority
    decide

end GoTicket
